import Mathlib

/-!
Verification development for the Mizu sensor hub telemetry logger
(`src/main.cpp`).

Modelling conventions for the shallow embedding:

* C `float` values are modelled as rationals (`ℚ`), a superset of the IEEE
  binary32 values; the symbolic claims (field order and terminator,
  carry-forward, noninterference, the trailing `.00` of the humidity field)
  are independent of the representation.  Where a claim is sensitive to the
  binary32 representation — the `%.6f` GPS fields of the §6 scenario — the
  concrete inputs are the exact rational values of the binary32 floats
  nearest to the scenario decimals (round to nearest, ties to even):
  `float(37.7749) = 9902463/2^18`, which prints as `37.774899`, and
  `float(-122.4194) = -16045756/2^17`, which prints as `-122.419403`.  The
  lemmas `c2_latitude_binary32_nearest` and `c2_longitude_binary32_nearest`
  certify the nearest-float choice.
* `printf`-style `%.Nf` formatting is modelled by `formatFixed`, which rounds
  the scaled absolute value half-to-even (the IEEE default used by `printf`)
  and prints a sign, the integer part, `.`, and exactly `N` zero-padded
  fraction digits.
* Each collaborator that reports through an out-argument (`power_system.vol`,
  `hepta_sensors.temp_sense`, `hepta_sensors.gga_sensing`, and the cached
  DHT11 read) is modelled as an `Option`-valued input for the cycle: `none`
  means the call failed to write its output argument, leaving the program
  variable at its previous value.  The soil-moisture `AnalogIn::read` returns
  by value and cannot fail to report, so it is a total input.
* The `while (true)` loop is modelled as a total step function on the
  program's working-variable state, iterated over a stream of per-cycle
  collaborator behaviours.
-/

/-- Decimal digit characters. -/
def digitList : List Char := ['0', '1', '2', '3', '4', '5', '6', '7', '8', '9']

/-- The decimal digit character for `n % 10`. -/
def digitChar (n : Nat) : Char :=
  match n % 10 with
  | 0 => '0'
  | 1 => '1'
  | 2 => '2'
  | 3 => '3'
  | 4 => '4'
  | 5 => '5'
  | 6 => '6'
  | 7 => '7'
  | 8 => '8'
  | _ => '9'

/-- Decimal digit characters of `n`, most significant first.  Structural
recursion on a fuel argument so that the kernel can evaluate it. -/
def natCharsAux : Nat → Nat → List Char
  | 0, _ => []
  | fuel + 1, n =>
    if n < 10 then [digitChar n]
    else natCharsAux fuel (n / 10) ++ [digitChar (n % 10)]

/-- Decimal digit characters of `n`, most significant first. -/
def natChars (n : Nat) : List Char := natCharsAux (n + 1) n

/-- Decimal rendering of a natural number. -/
def natStr (n : Nat) : String := ⟨natChars n⟩

/-- Left-pad a character list with `'0'` to width `d`. -/
def padZeros (d : Nat) (l : List Char) : List Char :=
  List.replicate (d - l.length) '0' ++ l

/-- The absolute value of `q` scaled by `10 ^ d` and rounded to the nearest
natural number, ties to even (the rounding `printf` applies before printing
`d` fraction digits).  Computed on the numerator and denominator so that the
kernel can evaluate it. -/
def scaledNat (q : ℚ) (d : Nat) : Nat :=
  let N := q.num.natAbs * 10 ^ d
  let D := q.den
  let fl := N / D
  let r := N % D
  if 2 * r < D then fl
  else if D < 2 * r then fl + 1
  else if fl % 2 = 0 then fl else fl + 1

/-- Model of `printf("%.df", q)`: sign, integer part, and — when `d ≠ 0` —
`'.'` followed by exactly `d` zero-padded fraction digits. -/
def formatFixed (q : ℚ) (d : Nat) : String :=
  (if q < 0 then "-" else "") ++ natStr (scaledNat q d / 10 ^ d) ++
    (if d = 0 then "" else "." ++ ⟨padZeros d (natChars (scaledNat q d % 10 ^ d))⟩)

/-- No carriage return or line feed occurs in the string. -/
def noCrLf (s : String) : Prop :=
  ∀ c ∈ s.data, c ≠ '\r' ∧ c ≠ '\n'

instance (s : String) : Decidable (noCrLf s) := by
  unfold noCrLf
  infer_instance

/-! ### Configuration constants (src/main.cpp lines 40–43) -/

/-- `static const char* kDeviceId = "MIZU_0001";` -/
def kDeviceId : String := "MIZU_0001"

/-- `static const float kDummyWindSpeedMs = 5.2f;` -/
def kDummyWindSpeedMs : ℚ := 5.2

/-! ### Data model -/

/-- The GPGGA fields written by `hepta_sensors.gga_sensing` through its
out-arguments (src/main.cpp lines 104–109).  The program stores these in
IEEE binary32 `float` variables; each rational field here holds the exact
value of the binary32 float the collaborator writes, so concrete inputs must
be binary32-representable rationals (dyadics with a 24-bit significand). -/
structure GpsFix where
  time_utc : ℚ
  latitude_deg : ℚ
  ns_indicator : Char
  longitude_deg : ℚ
  ew_indicator : Char
  quality_flag : ℤ
  sat_count : ℤ
  horz_acc_m : ℚ
  altitude_m : ℚ
  alt_unit : Char
  fix_check : ℤ
  deriving DecidableEq

/-- The telemetry working variables of `main` (src/main.cpp lines 53–75),
which persist across loop iterations. -/
structure HubState where
  battery_voltage_v : ℚ
  board_temp_c : ℚ
  ambient_temp_c : ℚ
  relative_humidity_percent : ℚ
  gps_quality_flag : ℤ
  gps_sat_count : ℤ
  gps_fix_check : ℤ
  gps_ns_indicator : Char
  gps_ew_indicator : Char
  gps_alt_unit : Char
  gps_time_utc : ℚ
  gps_latitude_deg : ℚ
  gps_longitude_deg : ℚ
  gps_horz_acc_m : ℚ
  gps_altitude_m : ℚ
  deriving DecidableEq

/-- Startup values of the working variables (src/main.cpp lines 53–75). -/
def initState : HubState where
  battery_voltage_v := 0
  board_temp_c := 0
  ambient_temp_c := 0
  relative_humidity_percent := 0
  gps_quality_flag := 0
  gps_sat_count := 0
  gps_fix_check := 0
  gps_ns_indicator := 'N'
  gps_ew_indicator := 'E'
  gps_alt_unit := 'm'
  gps_time_utc := 0
  gps_latitude_deg := 0
  gps_longitude_deg := 0
  gps_horz_acc_m := 0
  gps_altitude_m := 0

/-- One cycle's behaviour of the external collaborators.  An `Option` field is
`none` when the collaborator fails to write its output argument that cycle
(respectively, when the cached DHT11 read fails to refresh); the analog
soil-moisture read returns by value and is always available. -/
structure Env where
  vol : Option ℚ
  temp_sense : Option ℚ
  dht11_read : Option (ℤ × ℤ)
  soil_moisture_read : ℚ
  gga_sensing : Option GpsFix

/-- The canonical per-cycle telemetry snapshot of the spec's data model: the
eight values handed to the consolidated `comms_link.printf`
(src/main.cpp lines 122–132). -/
structure TelemetryRecord where
  device_id : String
  ambient_temp : ℚ
  humidity : ℚ
  soil_moisture : ℚ
  soil_temp : ℚ
  wind_speed : ℚ
  longitude : ℚ
  latitude : ℚ

/-! ### Operations -/

/-- One pass of the sensor-reading section of the loop body
(src/main.cpp lines 82–109): each out-argument collaborator overwrites its
variables when it reports and leaves them unchanged when it does not; the
DHT11 values are converted via `(f - 32) / 1.8` and an integer-to-float cast. -/
def stepState (s : HubState) (e : Env) : HubState where
  battery_voltage_v := e.vol.getD s.battery_voltage_v
  board_temp_c := e.temp_sense.getD s.board_temp_c
  ambient_temp_c :=
    match e.dht11_read with
    | some (f, _) => ((f : ℚ) - 32) / 1.8
    | none => s.ambient_temp_c
  relative_humidity_percent :=
    match e.dht11_read with
    | some (_, h) => (h : ℚ)
    | none => s.relative_humidity_percent
  gps_quality_flag := (e.gga_sensing.map GpsFix.quality_flag).getD s.gps_quality_flag
  gps_sat_count := (e.gga_sensing.map GpsFix.sat_count).getD s.gps_sat_count
  gps_fix_check := (e.gga_sensing.map GpsFix.fix_check).getD s.gps_fix_check
  gps_ns_indicator := (e.gga_sensing.map GpsFix.ns_indicator).getD s.gps_ns_indicator
  gps_ew_indicator := (e.gga_sensing.map GpsFix.ew_indicator).getD s.gps_ew_indicator
  gps_alt_unit := (e.gga_sensing.map GpsFix.alt_unit).getD s.gps_alt_unit
  gps_time_utc := (e.gga_sensing.map GpsFix.time_utc).getD s.gps_time_utc
  gps_latitude_deg := (e.gga_sensing.map GpsFix.latitude_deg).getD s.gps_latitude_deg
  gps_longitude_deg := (e.gga_sensing.map GpsFix.longitude_deg).getD s.gps_longitude_deg
  gps_horz_acc_m := (e.gga_sensing.map GpsFix.horz_acc_m).getD s.gps_horz_acc_m
  gps_altitude_m := (e.gga_sensing.map GpsFix.altitude_m).getD s.gps_altitude_m

/-- `float soil_moisture_percent = soil_moisture_sensor.read() * 100.0f;`
(src/main.cpp line 101). -/
def soil_moisture_percent (e : Env) : ℚ := e.soil_moisture_read * 100

/-- The record handed to the consolidated printf for the cycle that starts in
state `s` and observes collaborator behaviour `e` (src/main.cpp
lines 122–132): the freshly updated working variables, the cycle-local
soil-moisture percentage, and the two constants. -/
def recordOf (s : HubState) (e : Env) : TelemetryRecord :=
  let s1 := stepState s e
  { device_id := kDeviceId
    ambient_temp := s1.ambient_temp_c
    humidity := s1.relative_humidity_percent
    soil_moisture := soil_moisture_percent e
    soil_temp := s1.board_temp_c
    wind_speed := kDummyWindSpeedMs
    longitude := s1.gps_longitude_deg
    latitude := s1.gps_latitude_deg }

/-- The consolidated `comms_link.printf` format
(src/main.cpp lines 122–132): format string
`device_id=%s,ambient_temp=%.2f,humidity=%.2f,soil_moisture=%.1f,soil_temp=%.1f,wind_speed=%.1f,longitude=%.6f,latitude=%.6f\r\n`. -/
def encode (r : TelemetryRecord) : String :=
  "device_id=" ++ r.device_id ++
  ",ambient_temp=" ++ formatFixed r.ambient_temp 2 ++
  ",humidity=" ++ formatFixed r.humidity 2 ++
  ",soil_moisture=" ++ formatFixed r.soil_moisture 1 ++
  ",soil_temp=" ++ formatFixed r.soil_temp 1 ++
  ",wind_speed=" ++ formatFixed r.wind_speed 1 ++
  ",longitude=" ++ formatFixed r.longitude 6 ++
  ",latitude=" ++ formatFixed r.latitude 6 ++
  "\r\n"

/-- The line transmitted by the cycle that starts in state `s` and observes
collaborator behaviour `e`. -/
def lineOf (s : HubState) (e : Env) : String := encode (recordOf s e)

/-- `while (true)` loop condition (src/main.cpp line 81). -/
def loopCondition (_ : HubState) : Bool := true

/-- `wait(1.0f);` — the fixed pause, in seconds, at the end of every loop
iteration (src/main.cpp line 135). -/
def cycleWaitSeconds : ℚ := 1

/-- Working-variable state at the start of cycle `n`, given the stream of
per-cycle collaborator behaviours. -/
def stateAt (envs : Nat → Env) : Nat → HubState
  | 0 => initState
  | n + 1 => stepState (stateAt envs n) (envs n)

/-- The telemetry record of cycle `n`. -/
def recordAt (envs : Nat → Env) (n : Nat) : TelemetryRecord :=
  recordOf (stateAt envs n) (envs n)

/-- The line transmitted during cycle `n` — exactly one `printf` per
iteration. -/
def lineAt (envs : Nat → Env) (n : Nat) : String :=
  lineOf (stateAt envs n) (envs n)

/-! ### Concrete collaborator behaviours used as test inputs -/

/-- GPS fix of the spec's §6 end-to-end scenario: latitude 37.7749 N,
longitude −122.4194 (already signed for the western hemisphere), valid.
The latitude and longitude are the values the program's binary32 `float`
variables actually hold: the nearest floats to the scenario decimals,
`9902463/2^18 = 37.77489853…` and `-16045756/2^17 = -122.41940307…`
(see `c2_latitude_binary32_nearest` and `c2_longitude_binary32_nearest`). -/
def c2Fix : GpsFix where
  time_utc := 0
  latitude_deg := Rat.divInt 9902463 262144
  ns_indicator := 'N'
  longitude_deg := Rat.divInt (-16045756) 131072
  ew_indicator := 'W'
  quality_flag := 1
  sat_count := 8
  horz_acc_m := 1
  altitude_m := 10
  alt_unit := 'm'
  fix_check := 1

/-- Collaborator behaviour of the spec's §6 end-to-end scenario: power 3.7 V,
board temperature 22.1 °C, ambient read (77 °F, 60 %), soil fraction 0.458,
valid GPS fix `c2Fix`. -/
def c2Env : Env where
  vol := some (Rat.divInt 37 10)
  temp_sense := some (Rat.divInt 221 10)
  dht11_read := some (77, 60)
  soil_moisture_read := Rat.divInt 229 500
  gga_sensing := some c2Fix

/-- A cycle in which every out-argument collaborator fails to report. -/
def failEnv : Env where
  vol := none
  temp_sense := none
  dht11_read := none
  soil_moisture_read := 0
  gga_sensing := none

/-- A stream of cycles in which every out-argument collaborator always fails
to report. -/
def failEnvs : Nat → Env := fun _ => failEnv

/-- A variant of `c2Fix` that agrees on latitude and longitude but differs in
every other GPS sub-field. -/
def c8Fix : GpsFix where
  time_utc := Rat.divInt 1234567 10
  latitude_deg := Rat.divInt 9902463 262144
  ns_indicator := 'S'
  longitude_deg := Rat.divInt (-16045756) 131072
  ew_indicator := 'E'
  quality_flag := 2
  sat_count := 11
  horz_acc_m := 3
  altitude_m := 250
  alt_unit := 'f'
  fix_check := 0

/-- A cycle agreeing with `c2Env` on the ambient reading, humidity, soil
fraction, board temperature and GPS latitude/longitude, but with a failed
voltage read and different values in the unpublished GPS sub-fields. -/
def c8Env : Env where
  vol := none
  temp_sense := some (Rat.divInt 221 10)
  dht11_read := some (77, 60)
  soil_moisture_read := Rat.divInt 229 500
  gga_sensing := some c8Fix

/-- The telemetry values of the §6 scenario in normalized rational form,
with the GPS fields holding the binary32 float values of `c2Fix`. -/
def c2Record : TelemetryRecord where
  device_id := kDeviceId
  ambient_temp := 25
  humidity := 60
  soil_moisture := Rat.divInt 229 5
  soil_temp := Rat.divInt 221 10
  wind_speed := Rat.divInt 26 5
  longitude := Rat.divInt (-16045756) 131072
  latitude := Rat.divInt 9902463 262144

/-- A sample record used to instantiate universally quantified encoder
claims. -/
def kRecordExample : TelemetryRecord where
  device_id := kDeviceId
  ambient_temp := 25
  humidity := 60
  soil_moisture := Rat.divInt 229 5
  soil_temp := Rat.divInt 221 10
  wind_speed := Rat.divInt 26 5
  longitude := Rat.divInt (-612097) 5000
  latitude := Rat.divInt 377749 10000

/-- Characters that `formatFixed` may emit. -/
def fmtChars : List Char := '-' :: '.' :: digitList

/-! ### Helper lemmas about the formatter -/

theorem digitChar_mem_digitList (n : Nat) : digitChar n ∈ digitList := by
  unfold digitChar
  split <;> decide

theorem natCharsAux_mem (fuel : Nat) :
    ∀ n, ∀ c ∈ natCharsAux fuel n, c ∈ digitList := by
  induction fuel with
  | zero =>
    intro n c hc
    simp [natCharsAux] at hc
  | succ k ih =>
    intro n c hc
    simp only [natCharsAux] at hc
    by_cases h : n < 10
    · rw [if_pos h] at hc
      rcases List.mem_singleton.mp hc with rfl
      exact digitChar_mem_digitList n
    · rw [if_neg h] at hc
      rcases List.mem_append.mp hc with h1 | h2
      · exact ih (n / 10) c h1
      · rcases List.mem_singleton.mp h2 with rfl
        exact digitChar_mem_digitList (n % 10)

theorem natChars_mem (n : Nat) : ∀ c ∈ natChars n, c ∈ digitList :=
  natCharsAux_mem (n + 1) n

theorem padZeros_mem (d : Nat) (l : List Char) (hl : ∀ c ∈ l, c ∈ digitList) :
    ∀ c ∈ padZeros d l, c ∈ digitList := by
  intro c hc
  rcases List.mem_append.mp hc with h | h
  · rw [List.eq_of_mem_replicate h]
    decide
  · exact hl c h

theorem formatFixed_mem (q : ℚ) (d : Nat) :
    ∀ c ∈ (formatFixed q d).data, c ∈ fmtChars := by
  intro c hc
  have hdig : ∀ x ∈ digitList, x ∈ fmtChars := by decide
  unfold formatFixed at hc
  rw [String.data_append, String.data_append] at hc
  rcases List.mem_append.mp hc with h1 | h2
  · rcases List.mem_append.mp h1 with hsign | hip
    · by_cases hq : q < 0
      · rw [if_pos hq] at hsign
        rcases List.mem_singleton.mp hsign with rfl
        decide
      · rw [if_neg hq] at hsign
        simp at hsign
    · exact hdig c (natChars_mem _ c hip)
  · by_cases hd : d = 0
    · rw [if_pos hd] at h2
      simp at h2
    · rw [if_neg hd, String.data_append] at h2
      rcases List.mem_append.mp h2 with hdot | hfrac
      · rcases List.mem_singleton.mp hdot with rfl
        decide
      · exact hdig c (padZeros_mem d _ (natChars_mem _) c hfrac)

theorem fmtChars_no_crlf : ∀ c ∈ fmtChars, c ≠ '\r' ∧ c ≠ '\n' := by decide

theorem noCrLf_formatFixed (q : ℚ) (d : Nat) : noCrLf (formatFixed q d) :=
  fun c hc => fmtChars_no_crlf c (formatFixed_mem q d c hc)

theorem noCrLf_append {a b : String} (ha : noCrLf a) (hb : noCrLf b) :
    noCrLf (a ++ b) := by
  intro c hc
  rw [String.data_append] at hc
  rcases List.mem_append.mp hc with h | h
  · exact ha c h
  · exact hb c h

/-! ### The encoder output as comma-joined fields -/

theorem intercalate_fields (f1 f2 f3 f4 f5 f6 f7 f8 : String) :
    String.intercalate "," [f1, f2, f3, f4, f5, f6, f7, f8] =
      f1 ++ "," ++ f2 ++ "," ++ f3 ++ "," ++ f4 ++ "," ++ f5 ++ "," ++ f6 ++ "," ++ f7 ++ "," ++ f8 := by
  simp [String.intercalate, String.intercalate.go, String.append_assoc]

theorem encode_body (r : TelemetryRecord) :
    encode r = String.intercalate "," ["device_id=" ++ r.device_id,
      "ambient_temp=" ++ formatFixed r.ambient_temp 2,
      "humidity=" ++ formatFixed r.humidity 2,
      "soil_moisture=" ++ formatFixed r.soil_moisture 1,
      "soil_temp=" ++ formatFixed r.soil_temp 1,
      "wind_speed=" ++ formatFixed r.wind_speed 1,
      "longitude=" ++ formatFixed r.longitude 6,
      "latitude=" ++ formatFixed r.latitude 6] ++ "\r\n" := by
  rw [intercalate_fields, encode]
  rw [show (",ambient_temp=" : String) = "," ++ "ambient_temp=" from by decide]
  rw [show (",humidity=" : String) = "," ++ "humidity=" from by decide]
  rw [show (",soil_moisture=" : String) = "," ++ "soil_moisture=" from by decide]
  rw [show (",soil_temp=" : String) = "," ++ "soil_temp=" from by decide]
  rw [show (",wind_speed=" : String) = "," ++ "wind_speed=" from by decide]
  rw [show (",longitude=" : String) = "," ++ "longitude=" from by decide]
  rw [show (",latitude=" : String) = "," ++ "latitude=" from by decide]
  simp only [String.append_assoc]

theorem noCrLf_fields (r : TelemetryRecord) (hid : noCrLf r.device_id) :
    noCrLf (String.intercalate "," ["device_id=" ++ r.device_id,
      "ambient_temp=" ++ formatFixed r.ambient_temp 2,
      "humidity=" ++ formatFixed r.humidity 2,
      "soil_moisture=" ++ formatFixed r.soil_moisture 1,
      "soil_temp=" ++ formatFixed r.soil_temp 1,
      "wind_speed=" ++ formatFixed r.wind_speed 1,
      "longitude=" ++ formatFixed r.longitude 6,
      "latitude=" ++ formatFixed r.latitude 6]) := by
  rw [intercalate_fields]
  have hc : noCrLf ("," : String) := by decide
  have h1 : noCrLf ("device_id=" ++ r.device_id) := noCrLf_append (by decide) hid
  have h2 : noCrLf ("ambient_temp=" ++ formatFixed r.ambient_temp 2) :=
    noCrLf_append (by decide) (noCrLf_formatFixed _ _)
  have h3 : noCrLf ("humidity=" ++ formatFixed r.humidity 2) :=
    noCrLf_append (by decide) (noCrLf_formatFixed _ _)
  have h4 : noCrLf ("soil_moisture=" ++ formatFixed r.soil_moisture 1) :=
    noCrLf_append (by decide) (noCrLf_formatFixed _ _)
  have h5 : noCrLf ("soil_temp=" ++ formatFixed r.soil_temp 1) :=
    noCrLf_append (by decide) (noCrLf_formatFixed _ _)
  have h6 : noCrLf ("wind_speed=" ++ formatFixed r.wind_speed 1) :=
    noCrLf_append (by decide) (noCrLf_formatFixed _ _)
  have h7 : noCrLf ("longitude=" ++ formatFixed r.longitude 6) :=
    noCrLf_append (by decide) (noCrLf_formatFixed _ _)
  have h8 : noCrLf ("latitude=" ++ formatFixed r.latitude 6) :=
    noCrLf_append (by decide) (noCrLf_formatFixed _ _)
  exact noCrLf_append (noCrLf_append (noCrLf_append (noCrLf_append (noCrLf_append
    (noCrLf_append (noCrLf_append (noCrLf_append (noCrLf_append (noCrLf_append
    (noCrLf_append (noCrLf_append (noCrLf_append (noCrLf_append h1 hc) h2) hc) h3)
    hc) h4) hc) h5) hc) h6) hc) h7) hc) h8

theorem noCrLf_line (s : HubState) (e : Env) :
    ∃ body, lineOf s e = body ++ "\r\n" ∧ noCrLf body := by
  refine ⟨_, encode_body (recordOf s e), ?_⟩
  exact noCrLf_fields (recordOf s e) (show noCrLf kDeviceId by decide)

/-! ### Evaluation of the §6 scenario -/

/-- The scenario latitude variable holds `float(37.7749)`: in the binade
`[2^5, 2^6)` the binary32 floats are exactly the integer multiples of
`2^(-18)`, and `9902463/2^18` is strictly nearer to `37.7749` than every
other multiple (all floats outside the binade are farther still). -/
theorem c2_latitude_binary32_nearest :
    c2Fix.latitude_deg = 9902463 / 2 ^ 18 ∧
    (2 ^ 5 : ℚ) ≤ 9902463 / 2 ^ 18 ∧ (9902463 / 2 ^ 18 : ℚ) < 2 ^ 6 ∧
    ∀ m : ℤ, m ≠ 9902463 →
      |(37.7749 : ℚ) - 9902463 / 2 ^ 18| < |(37.7749 : ℚ) - (m : ℚ) / 2 ^ 18| := by
  refine ⟨?_, by norm_num, by norm_num, ?_⟩
  · show Rat.divInt 9902463 262144 = 9902463 / 2 ^ 18
    rw [Rat.divInt_eq_div]
    push_cast
    norm_num
  · intro m hm
    have hx : |(37.7749 : ℚ) - 9902463 / 2 ^ 18| = 3856 / 2621440000 := by
      rw [abs_of_pos (by norm_num)]
      norm_num
    rw [hx]
    rcases lt_or_gt_of_ne hm with h | h
    · have hm2 : (m : ℚ) ≤ 9902462 := by
        have h9 : m ≤ 9902462 := by omega
        exact_mod_cast h9
      have hy : (37.7749 : ℚ) - (m : ℚ) / 2 ^ 18 ≤ |(37.7749 : ℚ) - (m : ℚ) / 2 ^ 18| :=
        le_abs_self _
      have hstep : (13856 : ℚ) / 2621440000 ≤ (37.7749 : ℚ) - (m : ℚ) / 2 ^ 18 := by
        have hd : (m : ℚ) / 2 ^ 18 ≤ 9902462 / 2 ^ 18 := by gcongr
        norm_num at hd ⊢
        linarith
      linarith
    · have hm2 : (9902464 : ℚ) ≤ (m : ℚ) := by
        have h9 : 9902464 ≤ m := by omega
        exact_mod_cast h9
      have hy : -((37.7749 : ℚ) - (m : ℚ) / 2 ^ 18) ≤ |(37.7749 : ℚ) - (m : ℚ) / 2 ^ 18| :=
        neg_le_abs _
      have hstep : (6144 : ℚ) / 2621440000 ≤ (m : ℚ) / 2 ^ 18 - (37.7749 : ℚ) := by
        have hd : (9902464 : ℚ) / 2 ^ 18 ≤ (m : ℚ) / 2 ^ 18 := by gcongr
        norm_num at hd ⊢
        linarith
      linarith

/-- The scenario longitude variable holds `float(-122.4194)`: in its binade
the binary32 floats are exactly the integer multiples of `2^(-17)`, and
`-16045756/2^17` is strictly nearer to `-122.4194` than every other
multiple (all floats outside the binade are farther still). -/
theorem c2_longitude_binary32_nearest :
    c2Fix.longitude_deg = -16045756 / 2 ^ 17 ∧
    (-(2 ^ 7) : ℚ) < -16045756 / 2 ^ 17 ∧ (-16045756 / 2 ^ 17 : ℚ) ≤ -(2 ^ 6) ∧
    ∀ m : ℤ, m ≠ -16045756 →
      |(-122.4194 : ℚ) - (-16045756) / 2 ^ 17| < |(-122.4194 : ℚ) - (m : ℚ) / 2 ^ 17| := by
  refine ⟨?_, by norm_num, by norm_num, ?_⟩
  · show Rat.divInt (-16045756) 131072 = -16045756 / 2 ^ 17
    rw [Rat.divInt_eq_div]
    push_cast
    norm_num
  · intro m hm
    have hx : |(-122.4194 : ℚ) - (-16045756) / 2 ^ 17| = 4032 / 1310720000 := by
      rw [abs_of_pos (by norm_num)]
      norm_num
    rw [hx]
    rcases lt_or_gt_of_ne hm with h | h
    · have hm2 : (m : ℚ) ≤ -16045757 := by
        have h9 : m ≤ -16045757 := by omega
        exact_mod_cast h9
      have hy : (-122.4194 : ℚ) - (m : ℚ) / 2 ^ 17 ≤ |(-122.4194 : ℚ) - (m : ℚ) / 2 ^ 17| :=
        le_abs_self _
      have hstep : (14032 : ℚ) / 1310720000 ≤ (-122.4194 : ℚ) - (m : ℚ) / 2 ^ 17 := by
        have hd : (m : ℚ) / 2 ^ 17 ≤ -16045757 / 2 ^ 17 := by gcongr
        norm_num at hd ⊢
        linarith
      linarith
    · have hm2 : (-16045755 : ℚ) ≤ (m : ℚ) := by
        have h9 : -16045755 ≤ m := by omega
        exact_mod_cast h9
      have hy : -((-122.4194 : ℚ) - (m : ℚ) / 2 ^ 17) ≤ |(-122.4194 : ℚ) - (m : ℚ) / 2 ^ 17| :=
        neg_le_abs _
      have hstep : (5968 : ℚ) / 1310720000 ≤ (m : ℚ) / 2 ^ 17 + (122.4194 : ℚ) := by
        have hd : (-16045755 : ℚ) / 2 ^ 17 ≤ (m : ℚ) / 2 ^ 17 := by gcongr
        norm_num at hd ⊢
        linarith
      linarith

theorem c2_record_eval : recordOf initState c2Env = c2Record := by
  simp only [recordOf, stepState, soil_moisture_percent, c2Env, c2Fix, c2Record, initState,
    kDummyWindSpeedMs, kDeviceId, Option.getD_some, Option.map_some, TelemetryRecord.mk.injEq]
  norm_num [Rat.divInt_eq_div]

/-! ### Integer-valued humidity -/

theorem humidity_intCast (envs : Nat → Env) (n : Nat) :
    ∃ h : ℤ, (stateAt envs n).relative_humidity_percent = (h : ℚ) := by
  induction n with
  | zero => exact ⟨0, by norm_num [stateAt, initState]⟩
  | succ k ih =>
    rcases ih with ⟨h, hh⟩
    rcases hd : (envs k).dht11_read with _ | ⟨f, hum⟩
    · exact ⟨h, by simp [stateAt, stepState, hd, hh]⟩
    · exact ⟨hum, by simp [stateAt, stepState, hd]⟩

theorem recordAt_humidity_intCast (envs : Nat → Env) (n : Nat) :
    ∃ h : ℤ, (recordAt envs n).humidity = (h : ℚ) := by
  rcases hd : (envs n).dht11_read with _ | ⟨f, hum⟩
  · rcases humidity_intCast envs n with ⟨h, hh⟩
    exact ⟨h, by simp [recordAt, recordOf, stepState, hd, hh]⟩
  · exact ⟨hum, by simp [recordAt, recordOf, stepState, hd]⟩

theorem formatFixed_intCast_two (h : ℤ) :
    formatFixed (h : ℚ) 2 = ((if (h : ℚ) < 0 then "-" else "") ++ natStr h.natAbs) ++ ".00" := by
  have hs : scaledNat (h : ℚ) 2 = h.natAbs * 100 := by
    simp only [scaledNat, Rat.intCast_num, Rat.intCast_den, Nat.mod_one, Nat.div_one]
    norm_num
  unfold formatFixed
  rw [hs]
  have hip : h.natAbs * 100 / 10 ^ 2 = h.natAbs := by norm_num
  have hfp : h.natAbs * 100 % 10 ^ 2 = 0 := by norm_num
  rw [hip, hfp]
  rw [if_neg (by decide : ¬ (2 = 0))]
  rw [show padZeros 2 (natChars 0) = ['0', '0'] from rfl]
  rw [show ("." ++ (⟨['0', '0']⟩ : String)) = ".00" from by decide]

/-! ### Claim theorems -/

/-- C1: for every telemetry record produced by a cycle (the device id is the
configured constant), the encode/transmit step yields exactly one line: the
eight fields `device_id`, `ambient_temp`, `humidity`, `soil_moisture`,
`soil_temp`, `wind_speed`, `longitude`, `latitude` in that order, each
rendered as `key=value` and joined by `','`, with fixed fraction digits
2, 2, 1, 1, 1, 6, 6 for the seven numeric fields, terminated by CR LF, and
with no CR or LF anywhere else in the line.  The operation is a total
function by construction (no failure path). -/
theorem c1_encode_single_crlf_line (r : TelemetryRecord) (hid : r.device_id = kDeviceId) :
    ∃ body, encode r = body ++ "\r\n" ∧
      body = String.intercalate "," ["device_id=" ++ r.device_id,
        "ambient_temp=" ++ formatFixed r.ambient_temp 2,
        "humidity=" ++ formatFixed r.humidity 2,
        "soil_moisture=" ++ formatFixed r.soil_moisture 1,
        "soil_temp=" ++ formatFixed r.soil_temp 1,
        "wind_speed=" ++ formatFixed r.wind_speed 1,
        "longitude=" ++ formatFixed r.longitude 6,
        "latitude=" ++ formatFixed r.latitude 6] ∧
      noCrLf body := by
  refine ⟨_, encode_body r, rfl, ?_⟩
  refine noCrLf_fields r ?_
  rw [hid]
  decide

/-- C1 witness: the single-line property instantiated at a concrete record. -/
theorem c1_encode_single_crlf_line_witness :
    kRecordExample.device_id = kDeviceId ∧
    (∃ body, encode kRecordExample = body ++ "\r\n" ∧
      body = String.intercalate "," ["device_id=" ++ kRecordExample.device_id,
        "ambient_temp=" ++ formatFixed kRecordExample.ambient_temp 2,
        "humidity=" ++ formatFixed kRecordExample.humidity 2,
        "soil_moisture=" ++ formatFixed kRecordExample.soil_moisture 1,
        "soil_temp=" ++ formatFixed kRecordExample.soil_temp 1,
        "wind_speed=" ++ formatFixed kRecordExample.wind_speed 1,
        "longitude=" ++ formatFixed kRecordExample.longitude 6,
        "latitude=" ++ formatFixed kRecordExample.latitude 6] ∧
      noCrLf body) :=
  ⟨rfl, c1_encode_single_crlf_line kRecordExample rfl⟩

/-- C2 counterexample: on the §6 scenario inputs the cycle does not emit the
spec's example literal (which shows `25.50`, `60.20`, `45.80`, `22.10`,
`5.20`). -/
theorem c2_spec_literal_refuted :
    lineOf initState c2Env ≠
      "device_id=MIZU_0001,ambient_temp=25.50,humidity=60.20,soil_moisture=45.80,soil_temp=22.10,wind_speed=5.20,longitude=-122.419400,latitude=37.774900\r\n" := by
  rw [lineOf, c2_record_eval]
  decide

/-- C2 amended: on the §6 scenario inputs (power 3.7 V, board 22.1 °C,
ambient (77 °F, 60 %), soil fraction 0.458, GPS fix 37.7749 N / −122.4194 W
valid — stored as the binary32 floats `9902463/2^18` and `-16045756/2^17` —
wind constant 5.2) the cycle emits exactly the line with `25.00`, `60.00`,
`45.8`, `22.1`, `5.2`, `-122.419403`, `37.774899`: the `%.1f` fields carry
one fraction digit, 77 °F converts to exactly 25 °C, the integer humidity
renders `.00`, and `%.6f` prints the binary32 GPS values' digits, not the
spec literal's `-122.419400` / `37.774900`. -/
theorem c2_actual_emitted_line :
    lineOf initState c2Env =
      "device_id=MIZU_0001,ambient_temp=25.00,humidity=60.00,soil_moisture=45.8,soil_temp=22.1,wind_speed=5.2,longitude=-122.419403,latitude=37.774899\r\n" := by
  rw [lineOf, c2_record_eval]
  decide

/-- C3: when an out-argument collaborator fails to report in a cycle after
the first, the corresponding record fields equal the previous cycle's emitted
values (carry-forward), and when it fails on the very first cycle the fields
equal the startup defaults (0 for the numeric fields). -/
theorem c3_carry_forward (envs : Nat → Env) (n : Nat) :
    ((envs (n + 1)).dht11_read = none →
      (recordAt envs (n + 1)).ambient_temp = (recordAt envs n).ambient_temp ∧
      (recordAt envs (n + 1)).humidity = (recordAt envs n).humidity) ∧
    ((envs (n + 1)).temp_sense = none →
      (recordAt envs (n + 1)).soil_temp = (recordAt envs n).soil_temp) ∧
    ((envs (n + 1)).gga_sensing = none →
      (recordAt envs (n + 1)).longitude = (recordAt envs n).longitude ∧
      (recordAt envs (n + 1)).latitude = (recordAt envs n).latitude) ∧
    ((envs 0).dht11_read = none →
      (recordAt envs 0).ambient_temp = 0 ∧ (recordAt envs 0).humidity = 0) ∧
    ((envs 0).temp_sense = none → (recordAt envs 0).soil_temp = 0) ∧
    ((envs 0).gga_sensing = none →
      (recordAt envs 0).longitude = 0 ∧ (recordAt envs 0).latitude = 0) := by
  refine ⟨?_, ?_, ?_, ?_, ?_, ?_⟩ <;> intro hnone <;>
    simp [recordAt, recordOf, stepState, stateAt, initState, hnone]

/-- C3 witness: with every collaborator failing in every cycle, cycle 1
carries cycle 0's ambient value forward and cycle 0 uses the startup
defaults. -/
theorem c3_carry_forward_witness :
    failEnv.dht11_read = none ∧
    (recordAt failEnvs 1).ambient_temp = (recordAt failEnvs 0).ambient_temp ∧
    (recordAt failEnvs 0).ambient_temp = 0 ∧
    (recordAt failEnvs 0).longitude = 0 :=
  ⟨rfl, ((c3_carry_forward failEnvs 0).1 rfl).1,
    ((c3_carry_forward failEnvs 0).2.2.2.1 rfl).1,
    ((c3_carry_forward failEnvs 0).2.2.2.2.2 rfl).1⟩

/-- C4: when the ambient sensor reports the integer Fahrenheit value `f` and
integer humidity `h`, the record's ambient temperature is `(f - 32) / 1.8`
computed on the (embedded) floats and its humidity is `h` carried through
unchanged; in particular `f = 77` yields 25 °C. -/
theorem c4_dht_conversion (s : HubState) (e : Env) (f h : ℤ)
    (hread : e.dht11_read = some (f, h)) :
    (recordOf s e).ambient_temp = ((f : ℚ) - 32) / 1.8 ∧
    (recordOf s e).humidity = (h : ℚ) ∧
    (f = 77 → (recordOf s e).ambient_temp = 25) := by
  refine ⟨?_, ?_, ?_⟩
  · simp [recordOf, stepState, hread]
  · simp [recordOf, stepState, hread]
  · intro hf
    subst hf
    simp [recordOf, stepState, hread]
    norm_num

/-- C4 witness: the conversion instantiated at the (77 °F, 60 %) reading. -/
theorem c4_dht_conversion_witness :
    c2Env.dht11_read = some (77, 60) ∧
    (recordOf initState c2Env).ambient_temp = (((77 : ℤ) : ℚ) - 32) / 1.8 ∧
    (recordOf initState c2Env).humidity = ((60 : ℤ) : ℚ) ∧
    (recordOf initState c2Env).ambient_temp = 25 :=
  ⟨rfl, (c4_dht_conversion initState c2Env 77 60 rfl).1,
    (c4_dht_conversion initState c2Env 77 60 rfl).2.1,
    (c4_dht_conversion initState c2Env 77 60 rfl).2.2 rfl⟩

/-- C5: the record's soil-moisture value is the analog fraction multiplied by
100, and the fraction 0.458 is emitted as the percentage string 45.8. -/
theorem c5_soil_scaling (s : HubState) (e : Env) :
    (recordOf s e).soil_moisture = e.soil_moisture_read * 100 ∧
    formatFixed ((458 : ℚ) / 1000 * 100) 1 = "45.8" := by
  constructor
  · simp [recordOf, soil_moisture_percent]
  · rw [show (458 : ℚ) / 1000 * 100 = Rat.divInt 229 5 from by
      rw [Rat.divInt_eq_div]; push_cast; norm_num]
    decide

/-- C6: whenever the board-temperature collaborator reports a Celsius value,
the record's `soil_temp` field is that value verbatim. -/
theorem c6_soil_temp_verbatim (s : HubState) (e : Env) (t : ℚ)
    (ht : e.temp_sense = some t) :
    (recordOf s e).soil_temp = t := by
  simp [recordOf, stepState, ht]

/-- C6 witness: instantiated at a 22.1 °C board-temperature report. -/
theorem c6_soil_temp_verbatim_witness :
    c2Env.temp_sense = some (Rat.divInt 221 10) ∧
    (recordOf initState c2Env).soil_temp = Rat.divInt 221 10 :=
  ⟨rfl, c6_soil_temp_verbatim initState c2Env (Rat.divInt 221 10) rfl⟩

/-- C7: for every state and every collaborator behaviour, the record's
`wind_speed` is the configured constant, and the emitted line contains the
field `wind_speed=` followed by its fixed rendering 5.2 — no sensor input
can change it. -/
theorem c7_wind_constant (s : HubState) (e : Env) :
    (recordOf s e).wind_speed = kDummyWindSpeedMs ∧
    ∃ u v, lineOf s e = u ++ ("wind_speed=" ++ formatFixed kDummyWindSpeedMs 1) ++ v ∧
      formatFixed kDummyWindSpeedMs 1 = "5.2" := by
  have hfmt : formatFixed kDummyWindSpeedMs 1 = "5.2" := by
    rw [show kDummyWindSpeedMs = Rat.divInt 26 5 from by
      rw [Rat.divInt_eq_div]; unfold kDummyWindSpeedMs; push_cast; norm_num]
    decide
  refine ⟨rfl, ?_⟩
  refine ⟨"device_id=" ++ (recordOf s e).device_id ++ ",ambient_temp=" ++
      formatFixed (recordOf s e).ambient_temp 2 ++ ",humidity=" ++
      formatFixed (recordOf s e).humidity 2 ++ ",soil_moisture=" ++
      formatFixed (recordOf s e).soil_moisture 1 ++ ",soil_temp=" ++
      formatFixed (recordOf s e).soil_temp 1 ++ ",",
    ",longitude=" ++ formatFixed (recordOf s e).longitude 6 ++ ",latitude=" ++
      formatFixed (recordOf s e).latitude 6 ++ "\r\n", ?_, hfmt⟩
  rw [lineOf, encode]
  rw [show (",wind_speed=" : String) = "," ++ "wind_speed=" from by decide]
  rw [show (recordOf s e).wind_speed = kDummyWindSpeedMs from rfl]
  simp only [String.append_assoc]

/-- C8: two-run noninterference — any two cycles whose collaborators agree on
the ambient reading, humidity, soil fraction, board temperature, and GPS
latitude and longitude, while differing arbitrarily in the voltage reading
(including its failure) and in all other GPS sub-fields, emit identical
lines; moreover the voltage read is performed each cycle (a reported value
is stored in the working variable). -/
theorem c8_noninterference (s₁ s₂ : HubState) (e₁ e₂ : Env) (f h : ℤ) (t : ℚ)
    (g₁ g₂ : GpsFix)
    (hd1 : e₁.dht11_read = some (f, h)) (hd2 : e₂.dht11_read = some (f, h))
    (ht1 : e₁.temp_sense = some t) (ht2 : e₂.temp_sense = some t)
    (hsoil : e₁.soil_moisture_read = e₂.soil_moisture_read)
    (hg1 : e₁.gga_sensing = some g₁) (hg2 : e₂.gga_sensing = some g₂)
    (hlat : g₁.latitude_deg = g₂.latitude_deg)
    (hlon : g₁.longitude_deg = g₂.longitude_deg) :
    lineOf s₁ e₁ = lineOf s₂ e₂ ∧
    (∀ q : ℚ, e₁.vol = some q → (stepState s₁ e₁).battery_voltage_v = q) := by
  constructor
  · rw [lineOf, lineOf]
    simp only [encode, recordOf, stepState, soil_moisture_percent, hd1, hd2, ht1, ht2,
      hg1, hg2, Option.getD_some, Option.map_some', hsoil, hlat, hlon]
  · intro q hq
    simp [stepState, hq]

/-- C8 witness: the scenario cycle and a cycle from a different state with a
failed voltage read and different unpublished GPS sub-fields emit the same
line, and the reported voltage 3.7 V is stored. -/
theorem c8_noninterference_witness :
    c2Env.dht11_read = some (77, 60) ∧ c8Env.dht11_read = some (77, 60) ∧
    c2Env.temp_sense = some (Rat.divInt 221 10) ∧
    c8Env.temp_sense = some (Rat.divInt 221 10) ∧
    c2Env.soil_moisture_read = c8Env.soil_moisture_read ∧
    c2Env.gga_sensing = some c2Fix ∧ c8Env.gga_sensing = some c8Fix ∧
    c2Fix.latitude_deg = c8Fix.latitude_deg ∧
    c2Fix.longitude_deg = c8Fix.longitude_deg ∧
    lineOf initState c2Env = lineOf (stepState initState c2Env) c8Env ∧
    (stepState initState c2Env).battery_voltage_v = Rat.divInt 37 10 :=
  ⟨rfl, rfl, rfl, rfl, rfl, rfl, rfl, rfl, rfl,
    (c8_noninterference initState (stepState initState c2Env) c2Env c8Env 77 60
      (Rat.divInt 221 10) c2Fix c8Fix rfl rfl rfl rfl rfl rfl rfl rfl rfl).1,
    (c8_noninterference initState (stepState initState c2Env) c2Env c8Env 77 60
      (Rat.divInt 221 10) c2Fix c8Fix rfl rfl rfl rfl rfl rfl rfl rfl rfl).2
      (Rat.divInt 37 10) rfl⟩

/-- C9: the scheduler is an unconditional infinite loop — the loop condition
is `true` in every reachable state, every iteration applies the sensor-read
step and transmits exactly one CR-LF-terminated line (with no CR/LF in its
body), and the pause after each iteration is the fixed 1.0 second; the trace
is total (defined at every cycle index), so the program never terminates. -/
theorem c9_scheduler_cycle (envs : Nat → Env) (n : Nat) :
    loopCondition (stateAt envs n) = true ∧
    stateAt envs (n + 1) = stepState (stateAt envs n) (envs n) ∧
    (∃ body, lineAt envs n = body ++ "\r\n" ∧ noCrLf body) ∧
    cycleWaitSeconds = 1 :=
  ⟨rfl, rfl, noCrLf_line (stateAt envs n) (envs n), rfl⟩

/-- C10: the humidity value of every cycle's record is an integer cast, so
its two-fraction-digit rendering in the emitted line always ends in `.00` —
a value such as 60.20 can never be emitted. -/
theorem c10_humidity_always_00 (envs : Nat → Env) (n : Nat) :
    ∃ u rest, lineAt envs n =
      ("device_id=" ++ kDeviceId ++ ",ambient_temp=" ++
        formatFixed (recordAt envs n).ambient_temp 2 ++ ",humidity=" ++ (u ++ ".00")) ++ rest ∧
      formatFixed (recordAt envs n).humidity 2 = u ++ ".00" ∧ '.' ∉ u.data := by
  rcases recordAt_humidity_intCast envs n with ⟨h, hh⟩
  have hfmt : formatFixed (recordAt envs n).humidity 2 =
      ((if (h : ℚ) < 0 then "-" else "") ++ natStr h.natAbs) ++ ".00" := by
    rw [hh, formatFixed_intCast_two]
  refine ⟨(if (h : ℚ) < 0 then "-" else "") ++ natStr h.natAbs,
    ",soil_moisture=" ++ formatFixed (recordAt envs n).soil_moisture 1 ++ ",soil_temp=" ++
      formatFixed (recordAt envs n).soil_temp 1 ++ ",wind_speed=" ++
      formatFixed (recordAt envs n).wind_speed 1 ++ ",longitude=" ++
      formatFixed (recordAt envs n).longitude 6 ++ ",latitude=" ++
      formatFixed (recordAt envs n).latitude 6 ++ "\r\n", ?_, hfmt, ?_⟩
  · rw [show lineAt envs n = encode (recordAt envs n) from rfl, encode, hfmt]
    rw [show (recordAt envs n).device_id = kDeviceId from rfl]
    simp only [String.append_assoc]
  · intro hdot
    rw [String.data_append] at hdot
    rcases List.mem_append.mp hdot with hsign | hnum
    · by_cases hq : (h : ℚ) < 0
      · rw [if_pos hq] at hsign
        exact absurd hsign (by decide)
      · rw [if_neg hq] at hsign
        exact absurd hsign (by decide)
    · exact absurd (natChars_mem _ _ hnum) (by decide)
